import Mathlib

/-!
Verification of the HUVTSP anomaly-detection and alert-export core.

The development shallowly embeds two Python modules:
  * `anomaly-detection-enhanced.py` (class `EnhancedAnomalyDetector`)
  * `alert_export.py` (class `AlertExporter`)

Numeric model: Python/NumPy floating point values are modelled as `Option ℝ`
(`some x` for a finite value, `none` for a non-finite result, i.e. NaN or an
infinity — the code paths reasoned about below only ever produce NaN, so the
two non-finite kinds are collapsed).  Division by zero produces `none`, and
`none` propagates through arithmetic, mirroring NaN propagation.  Comparisons
against `none` are `false`, mirroring the fact that every Python/NumPy
comparison with NaN is `False`.
-/

noncomputable section

/-- A floating-point value: `some x` when finite, `none` when non-finite
(NaN or an infinity). -/
abbrev F : Type := Option ℝ

/-- Floating addition; non-finite operands propagate. -/
def fadd : F → F → F
  | some a, some b => some (a + b)
  | _, _ => none

/-- Floating subtraction; non-finite operands propagate. -/
def fsub : F → F → F
  | some a, some b => some (a - b)
  | _, _ => none

/-- Floating multiplication; non-finite operands propagate. -/
def fmul : F → F → F
  | some a, some b => some (a * b)
  | _, _ => none

/-- Floating division: division by zero is non-finite (0/0 is NaN, x/0 is an
infinity; both are modelled as `none`); non-finite operands propagate. -/
def fdiv : F → F → F
  | some a, some b => if b = 0 then none else some (a / b)
  | _, _ => none

/-- `np.abs`: absolute value, NaN-propagating. -/
def fabs : F → F := Option.map (fun x => |x|)

/-- `np.maximum` of a finite constant and a value: NaN-propagating
(unlike the Python builtin `max`, `np.maximum(0, nan)` is NaN). -/
def fmaxF : F → F → F
  | some a, some b => some (max a b)
  | _, _ => none

/-- `np.clip(x, lo, hi)`; NaN clips to NaN. -/
def fclip (lo hi : ℝ) : F → F := Option.map (fun x => min (max x lo) hi)

/-- Python comparison `x >= t` for a float `x` and finite `t`; `nan >= t`
is `False`. -/
def fge (x : F) (t : ℝ) : Bool :=
  match x with
  | some v => decide (t ≤ v)
  | none => false

/-- Python comparison `x > t` for a float `x` and finite `t`; `nan > t`
is `False`. -/
def fgt (x : F) (t : ℝ) : Bool :=
  match x with
  | some v => decide (t < v)
  | none => false

/-- Arithmetic mean of a list of reals (`np.mean` / `Series.mean` on finite
data). -/
def mean (l : List ℝ) : ℝ := l.sum / l.length

/-- Population variance (`ddof = 0`), as used by `scipy.stats.zscore` and
`sklearn.preprocessing.StandardScaler`. -/
def popVar (l : List ℝ) : ℝ :=
  ((l.map (fun x => (x - mean l) ^ 2)).sum) / l.length

/-- Sample variance (`ddof = 1`), as used by `pandas.Series.std`. -/
def sampleVar (l : List ℝ) : ℝ :=
  ((l.map (fun x => (x - mean l) ^ 2)).sum) / ((l.length : ℝ) - 1)

/-- `pandas.Series.std()` (`ddof = 1`): NaN on fewer than two samples,
otherwise the square root of the sample variance. -/
def sampleStdF (l : List ℝ) : F :=
  if l.length ≤ 1 then none else some (Real.sqrt (sampleVar l))

/-- The severity thresholds dictionary `self.thresholds` of
`EnhancedAnomalyDetector`. -/
structure Thresholds where
  critical : ℝ
  warning : ℝ
  info : ℝ

/-- The thresholds installed by `EnhancedAnomalyDetector.__init__`:
`{'critical': 0.8, 'warning': 0.5, 'info': 0.3}`. -/
def default_thresholds : Thresholds := ⟨0.8, 0.5, 0.3⟩

/-- One iteration of the loop body of
`EnhancedAnomalyDetector._classify_severity`: cascade of `>=` comparisons
against the thresholds (a NaN score falls through every branch to
`'Normal'`). -/
def classify_one (t : Thresholds) (score : F) : String :=
  if fge score t.critical then "Critical"
  else if fge score t.warning then "Warning"
  else if fge score t.info then "Info"
  else "Normal"

/-- `EnhancedAnomalyDetector._classify_severity`: classify each score. -/
def classify_severity (t : Thresholds) (scores : List F) : List String :=
  scores.map (classify_one t)

/-- Rank of a severity label in the ordered enum
`Normal < Info < Warning < Critical`. -/
def sevRank : String → ℕ
  | "Critical" => 3
  | "Warning" => 2
  | "Info" => 1
  | _ => 0

/-- The trailing rolling window of size 3 ending at index `i`
(`Series.rolling(window=3, min_periods=1)`): the first points use partial
windows of sizes 1 and 2. -/
def rollingWindow (values : List ℝ) (i : ℕ) : List ℝ :=
  (values.take (i + 1)).drop (i + 1 - 3)

/-- `rolling(window=3, min_periods=1).mean()` at index `i`. -/
def rollingMean (values : List ℝ) (i : ℕ) : ℝ :=
  mean (rollingWindow values i)

/-- `rolling(window=3, min_periods=1).std().fillna(0)` at index `i`: the
sample std of the window, with the NaN produced by a one-sample window
replaced by 0 by `fillna(0)`. -/
def rollingStd (values : List ℝ) (i : ℕ) : ℝ :=
  (sampleStdF (rollingWindow values i)).getD 0

/-- `Series.diff().fillna(0)` at index `i`: first difference, 0 for the first
element. -/
def diffAt (values : List ℝ) (i : ℕ) : ℝ :=
  if i = 0 then 0 else values.getD i 0 - values.getD (i - 1) 0

/-- One row of the `np.column_stack` result of
`EnhancedAnomalyDetector._extract_features`: the raw value, then (only when
the batch has at least 7 points) the rolling mean and rolling std, then (only
when a parseable date column is present, modelled as `dates = some ds` with
`ds` the parsed (hour-of-day, day-of-week) pairs) the calendar features, then
(only when the batch has more than one point) the first difference. -/
def featureRow (values : List ℝ) (dates : Option (List (ℕ × ℕ))) (i : ℕ) :
    List ℝ :=
  [values.getD i 0]
    ++ (if 7 ≤ values.length then [rollingMean values i, rollingStd values i]
        else [])
    ++ (match dates with
        | some ds => [((ds.getD i (0, 0)).1 : ℝ), ((ds.getD i (0, 0)).2 : ℝ)]
        | none => [])
    ++ (if 1 < values.length then [diffAt values i] else [])

/-- `EnhancedAnomalyDetector._extract_features`: one feature vector per
reading. -/
def extract_features (values : List ℝ) (dates : Option (List (ℕ × ℕ))) :
    List (List ℝ) :=
  (List.range values.length).map (featureRow values dates)

/-- `np.abs(stats.zscore(data['energyOutput']))` as computed in
`EnhancedAnomalyDetector.detect_anomalies`: `scipy.stats.zscore` divides the
centred value by the population std (`ddof = 0`); a zero std makes every
entry NaN (0/0 — the only possible case, since a zero std forces every value
to equal the mean). -/
def zscoreAbs (values : List ℝ) : List F :=
  let m := mean values
  let s := Real.sqrt (popVar values)
  values.map (fun x => fabs (fdiv (some (x - m)) (some s)))

/-- `EnhancedAnomalyDetector._spc_analysis`: 3-sigma control limits from the
batch mean and the pandas sample std (`ddof = 1`, hence NaN on a single
sample), then `np.maximum(0, values - ucl)/std + np.maximum(0, lcl - values)/std`. -/
def spc_analysis (values : List ℝ) : List F :=
  let m : F := some (mean values)
  let s : F := sampleStdF values
  let ucl := fadd m (fmul (some 3) s)
  let lcl := fsub m (fmul (some 3) s)
  values.map (fun x =>
    fadd (fdiv (fmaxF (some 0) (fsub (some x) ucl)) s)
      (fdiv (fmaxF (some 0) (fsub lcl (some x))) s))

/-- Pairwise minimum of two floats (NaN-propagating), the fold step of
`ndarray.min()`. -/
def fminOp : F → F → F
  | some a, some b => some (min a b)
  | _, _ => none

/-- Pairwise maximum of two floats (NaN-propagating), the fold step of
`ndarray.max()`. -/
def fmaxOp : F → F → F
  | some a, some b => some (max a b)
  | _, _ => none

/-- `ndarray.min()`: NaN-propagating minimum of a batch (NaN on an empty
batch). -/
def fminL : List F → F
  | [] => none
  | x :: xs => xs.foldl fminOp x

/-- `ndarray.max()`: NaN-propagating maximum of a batch (NaN on an empty
batch). -/
def fmaxL : List F → F
  | [] => none
  | x :: xs => xs.foldl fmaxOp x

/-- Isolation-score normalization in `EnhancedAnomalyDetector._combine_scores`:
min-max rescaling with the `1e-8` epsilon in the denominator, then inverted
(`1 - normalized`) so that higher means more anomalous. -/
def iso_normalized (iso : List F) : List F :=
  let mn := fminL iso
  let mx := fmaxL iso
  iso.map (fun s =>
    fsub (some 1) (fdiv (fsub s mn) (fadd (fsub mx mn) (some 1e-8))))

/-- Z-score normalization in `_combine_scores`: `np.clip(z / 4.0, 0, 1)`. -/
def z_normalized (z : List F) : List F :=
  z.map (fun v => fclip 0 1 (fdiv v (some 4)))

/-- SPC normalization in `_combine_scores`: `np.clip(spc / 3.0, 0, 1)`. -/
def spc_normalized (spc : List F) : List F :=
  spc.map (fun v => fclip 0 1 (fdiv v (some 3)))

/-- Three-way `List.zipWith`, the elementwise combination of three NumPy
arrays of equal length. -/
def zipWith3 {α β γ δ : Type} (f : α → β → γ → δ) :
    List α → List β → List γ → List δ
  | a :: as, b :: bs, c :: cs => f a b c :: zipWith3 f as bs cs
  | _, _, _ => []

/-- `EnhancedAnomalyDetector._combine_scores`: the weighted combination
`0.5 * iso_normalized + 0.3 * z_normalized + 0.2 * spc_normalized`. -/
def combine_scores (isolation_scores z_scores spc_scores : List F) : List F :=
  zipWith3 (fun a b c =>
      fadd (fadd (fmul (some 0.5) a) (fmul (some 0.3) b)) (fmul (some 0.2) c))
    (iso_normalized isolation_scores) (z_normalized z_scores)
    (spc_normalized spc_scores)

/-- One iteration of `EnhancedAnomalyDetector._get_recommendations`: keyed on
the row's severity and its energy output relative to the batch mean. -/
def get_recommendation (meanVal : ℝ) (severity : String) (energy : ℝ) :
    String :=
  if severity = "Critical" then
    if energy < meanVal * 0.5 then "Immediate equipment inspection required"
    else "Check for external factors affecting output"
  else if severity = "Warning" then
    "Monitor closely and schedule maintenance check"
  else if severity = "Info" then "Note for pattern analysis"
  else "No action required"

/-- Number of feature columns of a feature matrix. -/
def numCols (rows : List (List ℝ)) : ℕ := (rows.headD []).length

/-- Column `j` of a feature matrix. -/
def colVals (rows : List (List ℝ)) (j : ℕ) : List ℝ :=
  rows.map (fun r => r.getD j 0)

/-- `StandardScaler.fit`: per-column means. -/
def scaler_fit_mean (rows : List (List ℝ)) : List ℝ :=
  (List.range (numCols rows)).map (fun j => mean (colVals rows j))

/-- `StandardScaler.fit`: per-column scales — the population std, with a zero
std replaced by 1 (sklearn `_handle_zeros_in_scale`). -/
def scaler_fit_scale (rows : List (List ℝ)) : List ℝ :=
  (List.range (numCols rows)).map (fun j =>
    let s := Real.sqrt (popVar (colVals rows j))
    if s = 0 then 1 else s)

/-- `StandardScaler.transform`: per-column `(x - mean) / scale` with the
frozen fit-time parameters. -/
def scaler_transform (m s : List ℝ) (rows : List (List ℝ)) : List (List ℝ) :=
  rows.map (fun r => (List.range r.length).map (fun j =>
    (r.getD j 0 - m.getD j 0) / s.getD j 1))

/-- The input frame of the detector: the `energyOutput` column plus the
optional parsed `date` column. -/
structure EnergyData where
  values : List ℝ
  dates : Option (List (ℕ × ℕ))

/-- State of an `EnhancedAnomalyDetector`: the constructor arguments, the
isolation forest (modelled by its `decision_function`, installed by `fit`),
the frozen scaler parameters, the thresholds and the fitted flag. -/
structure EnhancedAnomalyDetector where
  contamination : ℝ
  random_state : ℤ
  forest : List (List ℝ) → List ℝ
  scaler_mean : List ℝ
  scaler_scale : List ℝ
  thresholds : Thresholds
  fitted : Bool

/-- `EnhancedAnomalyDetector.__init__(contamination, random_state)`: the
isolation forest is not yet fitted (its placeholder `decision_function` is
unreachable through `detect_anomalies`, which guards on `fitted`); the
thresholds are the fixed defaults. -/
def detector_init (contamination : ℝ) (random_state : ℤ) :
    EnhancedAnomalyDetector :=
  { contamination := contamination
    random_state := random_state
    forest := fun rows => rows.map (fun _ => 0)
    scaler_mean := []
    scaler_scale := []
    thresholds := default_thresholds
    fitted := false }

/-- A trainer for the isolation forest: given the random seed, the
contamination and the scaled training features, it returns the fitted
model's `decision_function`.  `sklearn.ensemble.IsolationForest` is external
library code, so the detector is verified over an arbitrary deterministic
trainer. -/
abbrev ForestTrainer : Type :=
  ℤ → ℝ → List (List ℝ) → (List (List ℝ) → List ℝ)

/-- `EnhancedAnomalyDetector.fit`: extract the features, fit the scaler,
scale, fit the isolation forest, set `fitted`. -/
def EnhancedAnomalyDetector.fit (trainer : ForestTrainer)
    (d : EnhancedAnomalyDetector) (data : EnergyData) :
    EnhancedAnomalyDetector :=
  let features := extract_features data.values data.dates
  let m := scaler_fit_mean features
  let s := scaler_fit_scale features
  let scaled := scaler_transform m s features
  { d with
    forest := trainer d.random_state d.contamination scaled
    scaler_mean := m
    scaler_scale := s
    fitted := true }

/-- One row of the result frame of `detect_anomalies`: the original reading
augmented with the anomaly columns. -/
structure ResultRow where
  energyOutput : ℝ
  anomaly_score : F
  isolation_score : ℝ
  z_score : F
  spc_score : F
  anomaly_flag : Bool
  severity : String
  recommended_action : String

/-- `EnhancedAnomalyDetector.detect_anomalies`: raises (modelled as an
`Except.error`) when the model is not fitted; otherwise returns the augmented
copy of the input, leaving the input itself unchanged. -/
def EnhancedAnomalyDetector.detect_anomalies (d : EnhancedAnomalyDetector)
    (data : EnergyData) : Except String (List ResultRow) :=
  if d.fitted = false then
    .error "Model must be fitted before detecting anomalies"
  else
    let features := extract_features data.values data.dates
    let scaled := scaler_transform d.scaler_mean d.scaler_scale features
    let isolation_scores := d.forest scaled
    let z_scores := zscoreAbs data.values
    let spc_scores := spc_analysis data.values
    let combined := combine_scores (isolation_scores.map some) z_scores
      spc_scores
    let sev := classify_severity d.thresholds combined
    let m := mean data.values
    .ok ((List.range data.values.length).map (fun i =>
      { energyOutput := data.values.getD i 0
        anomaly_score := combined.getD i none
        isolation_score := isolation_scores.getD i 0
        z_score := z_scores.getD i none
        spc_score := spc_scores.getD i none
        anomaly_flag := fgt (combined.getD i none) d.thresholds.info
        severity := sev.getD i "Normal"
        recommended_action :=
          get_recommendation m (sev.getD i "Normal") (data.values.getD i 0) }))

/-- A value of the `date` column: either a raw (unparsed) string or a parsed
timestamp, modelled by its calendar day index (the export pipeline compares
dates only at day granularity, via `.dt.date`). -/
inductive DateVal where
  | raw (s : String)
  | ts (day : ℕ)
deriving DecidableEq

/-- `pd.to_datetime` on one date value; the parser itself (pandas date
parsing, external library code) is supplied as a function from strings to day
indices. -/
def to_datetime (parse : String → ℕ) : DateVal → DateVal
  | .raw s => .ts (parse s)
  | .ts d => .ts d

/-- An input row of the exporter's anomaly frame (the columns read by
`AlertExporter`). -/
structure AlertInputRow where
  date : DateVal
  energyOutput : ℝ
  severity : String
  anomaly_score : ℝ
  recommended_action : String

/-- The exporter's anomaly frame. -/
structure AlertFrame where
  rows : List AlertInputRow

/-- `AlertExporter.filter_anomalies_by_date`: converts the caller's `date`
column to datetime in place (`data['date'] = pd.to_datetime(data['date'])`)
and then keeps the rows whose day equals the target day.  The first component
of the result is the caller's frame after the call (explicit state passing
makes the in-place column write visible); the second is the filtered frame. -/
def filter_anomalies_by_date (parse : String → ℕ) (data : AlertFrame)
    (target_date : String) : AlertFrame × AlertFrame :=
  let converted : AlertFrame :=
    ⟨data.rows.map (fun r => { r with date := to_datetime parse r.date })⟩
  let tgt := parse target_date
  (converted, ⟨converted.rows.filter (fun r =>
    match r.date with
    | .ts d => decide (d = tgt)
    | .raw _ => false)⟩)

/-- Python builtin `max(0, x)` with a float second argument: the builtin
returns its first argument unless the second compares strictly greater, so
`max(0, nan) = 0` (`nan > 0` is `False`). -/
def pymax0 : F → F
  | some q => some (max 0 q)
  | none => some 0

/-- Round half to even to an integer (the rounding used by
`pandas.Series.round`). -/
def roundHalfEven (x : ℝ) : ℤ :=
  if x - ⌊x⌋ < 1 / 2 then ⌊x⌋
  else if 1 / 2 < x - ⌊x⌋ then ⌊x⌋ + 1
  else if ⌊x⌋ % 2 = 0 then ⌊x⌋ else ⌊x⌋ + 1

/-- `Series.round(2)`: round to two decimal places. -/
def round2 (x : ℝ) : ℝ := (roundHalfEven (x * 100) : ℝ) / 100

/-- `Series.round(2)` on a float: NaN rounds to NaN. -/
def round2F : F → F := Option.map round2

/-- The severity → system_status mapping of `format_alert_data`
(`.map({...}).fillna('Under Review')`). -/
def system_status_of (s : String) : String :=
  if s = "Critical" then "Requires Immediate Attention"
  else if s = "Warning" then "Monitoring Required"
  else if s = "Info" then "Normal Operation"
  else if s = "Normal" then "Operating Normally"
  else "Under Review"

/-- `Series.is_monotonic_decreasing`: non-increasing from head to tail. -/
def is_monotonic_decreasing : List ℝ → Bool
  | [] => true
  | [_] => true
  | x :: y :: t => decide (y ≤ x) && is_monotonic_decreasing (y :: t)

/-- One output row of `AlertExporter.format_alert_data` — the fixed Alert
schema. -/
structure AlertRow where
  alert_id : ℕ
  timestamp : DateVal
  energy_kwh : ℝ
  severity : String
  anomaly_score : ℝ
  deviation_percentage : F
  expected_min : F
  expected_max : F
  system_status : String
  recommended_action : String
  units_affected : String
  trend_direction : String
  created_at : String

/-- Fallback `AlertRow` used as a `getD` default in statements. -/
def defaultAlertRow : AlertRow :=
  ⟨0, .raw "", 0, "", 0, none, none, none, "", "", "", "", ""⟩

/-- One row of the frame built by `format_alert_data`, given the day-batch
statistics: `alert_id = index + 1`, the Python `max(0, mean - 2*std)` and
`mean + 2*std` expected range, and
`abs((energy - mean) / mean * 100).round(2)` — note the absolute value wraps
the whole signed ratio. -/
def format_row (now : String) (mean_output : ℝ) (std_output : F)
    (trend : String) (p : ℕ × AlertInputRow) : AlertRow :=
  { alert_id := p.1 + 1
    timestamp := p.2.date
    energy_kwh := p.2.energyOutput
    severity := p.2.severity
    anomaly_score := p.2.anomaly_score
    deviation_percentage := round2F (fabs (fmul (fdiv
      (fsub (some p.2.energyOutput) (some mean_output)) (some mean_output))
      (some 100)))
    expected_min := pymax0 (fsub (some mean_output) (fmul (some 2) std_output))
    expected_max := fadd (some mean_output) (fmul (some 2) std_output)
    system_status := system_status_of p.2.severity
    recommended_action := p.2.recommended_action
    units_affected := "Primary System"
    trend_direction := trend
    created_at := now }

/-- `AlertExporter.format_alert_data`: an empty input yields an empty frame;
otherwise one Alert row per input row, with the derived fields computed over
the given (day's own) rows and the trend direction `'Declining'` for a
monotonically non-increasing multi-row day, `'Variable'` otherwise,
`'Single Point'` for a one-row day. -/
def format_alert_data (now : String) (anomaly_data : AlertFrame) :
    List AlertRow :=
  if anomaly_data.rows.isEmpty then []
  else
    let energies := anomaly_data.rows.map (fun r => r.energyOutput)
    let mean_output := mean energies
    let std_output := sampleStdF energies
    let trend :=
      if 1 < anomaly_data.rows.length then
        if is_monotonic_decreasing energies then "Declining" else "Variable"
      else "Single Point"
    anomaly_data.rows.enum.map (format_row now mean_output std_output trend)

/-- The column names of a non-empty export frame, in the order of the
`export_columns` dictionary of `format_alert_data`. -/
def export_column_names : List String :=
  ["alert_id", "timestamp", "energy_kwh", "severity", "anomaly_score",
   "deviation_percentage", "expected_min", "expected_max", "system_status",
   "recommended_action", "units_affected", "trend_direction", "created_at"]

/-- The explicit header list written for an empty day by
`export_daily_alerts` ("Create empty file with headers for consistency"). -/
def empty_day_headers : List String :=
  ["alert_id", "timestamp", "energy_kwh", "severity", "anomaly_score",
   "deviation_percentage", "expected_min", "expected_max", "system_status",
   "recommended_action", "units_affected", "trend_direction", "created_at"]

/-- The CSV artifact written by `export_daily_alerts`: the target file name,
the header row and the alert rows (an empty day yields a header-only file). -/
structure ExportArtifact where
  path : String
  headers : List String
  rows : List AlertRow

/-- `export_date.replace('-', '')` as used to build the export file name:
removes every dash. -/
def removeDashes (s : String) : String :=
  ⟨s.data.filter (fun c => c ≠ Char.ofNat 45)⟩

/-- `export_path.replace('.csv', '_summary.json')`: every path built by
`export_daily_alerts` ends in `.csv` and contains it exactly once, so the
replacement swaps that suffix. -/
def summaryPathOf (p : String) : String :=
  ⟨p.data.take (p.data.length - 4)⟩ ++ "_summary.json"

/-- `AlertExporter.export_daily_alerts`: filter the frame to the target day,
format, and write the CSV (header-only when the day is empty) and the JSON
summary.  The two file writes go through the I/O oracle `io`, whose failure
propagates as the raised exception.  Returns the caller's frame after the
call (the in-place date conversion done by `filter_anomalies_by_date` is
visible to the caller), the written artifact and the alert count. -/
def export_daily_alerts (parse : String → ℕ)
    (io : String → Except String Unit) (now : String) (data : AlertFrame)
    (export_date : String) (prefixStr : String) :
    Except String (AlertFrame × ExportArtifact × ℕ) :=
  let fd := filter_anomalies_by_date parse data export_date
  let formatted := format_alert_data now fd.2
  let filename := prefixStr ++ "_" ++ removeDashes export_date ++ ".csv"
  let headers :=
    if formatted.isEmpty then empty_day_headers else export_column_names
  match io filename with
  | .error e => .error e
  | .ok _ =>
    let summary_path := summaryPathOf filename
    match io summary_path with
    | .error e => .error e
    | .ok _ => .ok (fd.1, ⟨filename, headers, formatted⟩, formatted.length)

/-- One per-day record of `AlertExporter.batch_export`. -/
structure BatchResult where
  date : String
  file_path : Option String
  alert_count : ℕ
  status : String
  error : Option String
deriving DecidableEq

/-- Fallback `BatchResult` used as a `getD` default in statements. -/
def defaultBatchResult : BatchResult := ⟨"", none, 0, "", none⟩

/-- `AlertExporter.batch_export`: iterate over the `n` days produced by
`dateOf` (the source derives day `i` as
`datetime.now() - timedelta(days=i)`), catching each day's exception and
recording it as a failed result with the error message, without aborting the
remaining days. -/
def batch_export (parse : String → ℕ) (io : String → Except String Unit)
    (now : String) (data : AlertFrame) (dateOf : ℕ → String) (n : ℕ) :
    List BatchResult :=
  (List.range n).map (fun i =>
    let export_date := dateOf i
    match export_daily_alerts parse io now data export_date "alerts" with
    | .ok r => { date := export_date, file_path := some r.2.1.path,
                 alert_count := r.2.2, status := "success", error := none }
    | .error e => { date := export_date, file_path := none, alert_count := 0,
                    status := "failed", error := some e })

/-- A concrete I/O oracle that fails with an I/O error exactly on day 3's
alert file. -/
def io_day3_fails : String → Except String Unit :=
  fun p => if p = "alerts_d3.csv" then .error "disk full" else .ok ()

/-- Seven concrete day labels, most recent first. -/
def seven_days : ℕ → String :=
  fun i => ["d1", "d2", "d3", "d4", "d5", "d6", "d7"].getD i ""

/-- Index into `(List.range n).map f`. -/
theorem getD_range_map {α : Type} (f : ℕ → α) (n i : ℕ) (d : α) (h : i < n) :
    ((List.range n).map f).getD i d = f i := by
  rw [List.getD_eq_getElem?_getD, List.getElem?_map, List.getElem?_range h]
  rfl

/-- Index into `l.map some`. -/
theorem getD_map_some (l : List ℝ) (i : ℕ) (h : i < l.length) :
    (l.map some).getD i none = some (l.getD i 0) := by
  rw [List.getD_eq_getElem?_getD, List.getD_eq_getElem?_getD, List.getElem?_map,
    List.getElem?_eq_getElem h]
  rfl

/-- `ndarray.min()` of an all-finite nonempty batch is a finite lower bound. -/
theorem fminL_le (l : List ℝ) (x : ℝ) :
    ∃ m, fminL ((x :: l).map some) = some m ∧ ∀ y ∈ x :: l, m ≤ y := by
  induction l generalizing x with
  | nil =>
    refine ⟨x, rfl, ?_⟩
    intro y hy
    simp only [List.mem_singleton] at hy
    rw [hy]
  | cons y t ih =>
    obtain ⟨m, hm, hle⟩ := ih (min x y)
    refine ⟨m, ?_, ?_⟩
    · have heq : fminL ((x :: y :: t).map some) =
          fminL ((min x y :: t).map some) := by
        simp [fminL, fminOp]
      rw [heq]
      exact hm
    · intro z hz
      have hxy : m ≤ min x y := hle (min x y) (List.mem_cons_self _ _)
      rcases List.mem_cons.mp hz with rfl | hz2
      · exact hxy.trans (min_le_left _ _)
      rcases List.mem_cons.mp hz2 with rfl | hz3
      · exact hxy.trans (min_le_right _ _)
      · exact hle z (List.mem_cons_of_mem _ hz3)

/-- `ndarray.max()` of an all-finite nonempty batch is a finite upper bound. -/
theorem fmaxL_ge (l : List ℝ) (x : ℝ) :
    ∃ m, fmaxL ((x :: l).map some) = some m ∧ ∀ y ∈ x :: l, y ≤ m := by
  induction l generalizing x with
  | nil =>
    refine ⟨x, rfl, ?_⟩
    intro y hy
    simp only [List.mem_singleton] at hy
    rw [hy]
  | cons y t ih =>
    obtain ⟨m, hm, hle⟩ := ih (max x y)
    refine ⟨m, ?_, ?_⟩
    · have heq : fmaxL ((x :: y :: t).map some) =
          fmaxL ((max x y :: t).map some) := by
        simp [fmaxL, fmaxOp]
      rw [heq]
      exact hm
    · intro z hz
      have hxy : max x y ≤ m := hle (max x y) (List.mem_cons_self _ _)
      rcases List.mem_cons.mp hz with rfl | hz2
      · exact (le_max_left _ _).trans hxy
      rcases List.mem_cons.mp hz2 with rfl | hz3
      · exact (le_max_right _ _).trans hxy
      · exact hle z (List.mem_cons_of_mem _ hz3)

/-- Index into a three-way zip. -/
theorem zipWith3_getD {α β γ δ : Type} (f : α → β → γ → δ) (da : α) (db : β)
    (dc : γ) (dd : δ) (as : List α) (bs : List β) (cs : List γ) :
    ∀ i : ℕ, i < as.length → i < bs.length → i < cs.length →
      (zipWith3 f as bs cs).getD i dd =
        f (as.getD i da) (bs.getD i db) (cs.getD i dc) := by
  induction as generalizing bs cs with
  | nil => intro i hi _ _; simp at hi
  | cons a as ih =>
    intro i hi hb hc
    cases bs with
    | nil => simp at hb
    | cons b bs =>
      cases cs with
      | nil => simp at hc
      | cons c cs =>
        cases i with
        | zero => simp [zipWith3]
        | succ i =>
          simp only [zipWith3, List.getD_cons_succ]
          exact ih bs cs i (by simpa using hi) (by simpa using hb)
            (by simpa using hc)

/-- Pointwise value of the isolation-score normalization on an all-finite
batch. -/
theorem iso_normalized_getD (xs : List ℝ) (mnv mxv : ℝ)
    (hmn : fminL (xs.map some) = some mnv)
    (hmx : fmaxL (xs.map some) = some mxv)
    (hden : mxv - mnv + 1e-8 ≠ 0) (i : ℕ) (hi : i < xs.length) :
    (iso_normalized (xs.map some)).getD i none =
      some (1 - (xs.getD i 0 - mnv) / (mxv - mnv + 1e-8)) := by
  simp only [iso_normalized, hmn, hmx]
  rw [List.map_map, List.getD_eq_getElem?_getD, List.getElem?_map,
    List.getElem?_eq_getElem hi]
  simp [fsub, fadd, fdiv, if_neg hden, List.getElem?_eq_getElem hi]

/-- Pointwise value of the z-score normalization on an all-finite batch. -/
theorem z_normalized_getD (ys : List ℝ) (i : ℕ) (hi : i < ys.length) :
    (z_normalized (ys.map some)).getD i none =
      some (min (max (ys.getD i 0 / 4) 0) 1) := by
  simp only [z_normalized]
  rw [List.map_map, List.getD_eq_getElem?_getD, List.getElem?_map,
    List.getElem?_eq_getElem hi]
  norm_num [fdiv, fclip, List.getElem?_eq_getElem hi]

/-- Pointwise value of the SPC normalization on an all-finite batch. -/
theorem spc_normalized_getD (zs : List ℝ) (i : ℕ) (hi : i < zs.length) :
    (spc_normalized (zs.map some)).getD i none =
      some (min (max (zs.getD i 0 / 3) 0) 1) := by
  simp only [spc_normalized]
  rw [List.map_map, List.getD_eq_getElem?_getD, List.getElem?_map,
    List.getElem?_eq_getElem hi]
  norm_num [fdiv, fclip, List.getElem?_eq_getElem hi]

/-- C1: on a finite batch, each reading's combined score is exactly
`0.5 * iso_normalized + 0.3 * z_normalized + 0.2 * spc_normalized`; each
normalized component lies in `[0, 1]`, and therefore the combined score lies
in `[0, 1]`. -/
theorem C1_combined_score (xs ys zs : List ℝ) (hne : xs ≠ [])
    (hy : ys.length = xs.length) (hz : zs.length = xs.length)
    (i : ℕ) (hi : i < xs.length) :
    ∃ a b c,
      (iso_normalized (xs.map some)).getD i none = some a ∧
      (z_normalized (ys.map some)).getD i none = some b ∧
      (spc_normalized (zs.map some)).getD i none = some c ∧
      (combine_scores (xs.map some) (ys.map some) (zs.map some)).getD i none =
        some (0.5 * a + 0.3 * b + 0.2 * c) ∧
      0 ≤ a ∧ a ≤ 1 ∧ 0 ≤ b ∧ b ≤ 1 ∧ 0 ≤ c ∧ c ≤ 1 ∧
      0 ≤ 0.5 * a + 0.3 * b + 0.2 * c ∧ 0.5 * a + 0.3 * b + 0.2 * c ≤ 1 := by
  obtain ⟨x0, t, rfl⟩ := List.exists_cons_of_ne_nil hne
  obtain ⟨mnv, hmn, hmnle⟩ := fminL_le t x0
  obtain ⟨mxv, hmx, hmxge⟩ := fmaxL_ge t x0
  have hximem : (x0 :: t).getD i 0 ∈ x0 :: t := by
    rw [List.getD_eq_getElem _ _ hi]
    exact List.getElem_mem hi
  have h1 : mnv ≤ (x0 :: t).getD i 0 := hmnle _ hximem
  have h2 : (x0 :: t).getD i 0 ≤ mxv := hmxge _ hximem
  have he : (0 : ℝ) < 1e-8 := by norm_num
  have hd : (0 : ℝ) < mxv - mnv + 1e-8 := by
    have hmm : mnv ≤ mxv := h1.trans h2
    linarith
  have hiy : i < ys.length := by omega
  have hiz : i < zs.length := by omega
  refine ⟨1 - ((x0 :: t).getD i 0 - mnv) / (mxv - mnv + 1e-8),
    min (max (ys.getD i 0 / 4) 0) 1, min (max (zs.getD i 0 / 3) 0) 1,
    iso_normalized_getD _ _ _ hmn hmx (ne_of_gt hd) i hi,
    z_normalized_getD ys i hiy, spc_normalized_getD zs i hiz, ?_, ?_⟩
  · rw [combine_scores,
      zipWith3_getD _ none none none none _ _ _ i
        (by simpa [iso_normalized] using hi)
        (by simpa [z_normalized] using hiy)
        (by simpa [spc_normalized] using hiz),
      iso_normalized_getD _ _ _ hmn hmx (ne_of_gt hd) i hi,
      z_normalized_getD ys i hiy, spc_normalized_getD zs i hiz]
    simp [fadd, fmul]
  · have hr0 : 0 ≤ ((x0 :: t).getD i 0 - mnv) / (mxv - mnv + 1e-8) :=
      div_nonneg (by linarith) (le_of_lt hd)
    have hr1 : ((x0 :: t).getD i 0 - mnv) / (mxv - mnv + 1e-8) < 1 :=
      (div_lt_one hd).mpr (by linarith)
    have hb0 : (0 : ℝ) ≤ min (max (ys.getD i 0 / 4) 0) 1 :=
      le_min (le_max_right _ _) zero_le_one
    have hb1 : min (max (ys.getD i 0 / 4) 0) 1 ≤ 1 := min_le_right _ _
    have hc0 : (0 : ℝ) ≤ min (max (zs.getD i 0 / 3) 0) 1 :=
      le_min (le_max_right _ _) zero_le_one
    have hc1 : min (max (zs.getD i 0 / 3) 0) 1 ≤ 1 := min_le_right _ _
    refine ⟨by linarith, by linarith, hb0, hb1, hc0, hc1, by linarith, by linarith⟩

/-- Witness for C1 on a concrete finite batch. -/
theorem C1_combined_score_witness :
    ∃ a b c,
      (iso_normalized ([0, 1].map some)).getD 0 none = some a ∧
      (z_normalized ([2, 3].map some)).getD 0 none = some b ∧
      (spc_normalized ([4, 5].map some)).getD 0 none = some c ∧
      (combine_scores ([0, 1].map some) ([2, 3].map some)
          ([4, 5].map some)).getD 0 none =
        some (0.5 * a + 0.3 * b + 0.2 * c) ∧
      0 ≤ a ∧ a ≤ 1 ∧ 0 ≤ b ∧ b ≤ 1 ∧ 0 ≤ c ∧ c ≤ 1 ∧
      0 ≤ 0.5 * a + 0.3 * b + 0.2 * c ∧ 0.5 * a + 0.3 * b + 0.2 * c ≤ 1 :=
  C1_combined_score [0, 1] [2, 3] [4, 5] (by simp) (by simp) (by simp) 0
    (by simp)

/-- C2: severity classification is a pure function of the combined score with
the fixed thresholds 0.8/0.5/0.3, a score equal to a threshold meets it (ties
go to the higher severity), classification is monotone in the score, and the
scores 0.95, 0.8, 0.6, 0.5, 0.4, 0.3, 0.1 classify to Critical, Critical,
Warning, Warning, Info, Info, Normal respectively. -/
theorem C2_severity_classification :
    (default_thresholds.critical = 0.8 ∧ default_thresholds.warning = 0.5 ∧
      default_thresholds.info = 0.3) ∧
    (∀ x y : ℝ, x ≤ y →
      sevRank (classify_one default_thresholds (some x)) ≤
        sevRank (classify_one default_thresholds (some y))) ∧
    classify_severity default_thresholds
        ([0.95, 0.8, 0.6, 0.5, 0.4, 0.3, 0.1].map some) =
      ["Critical", "Critical", "Warning", "Warning", "Info", "Info", "Normal"] := by
  refine ⟨⟨rfl, rfl, rfl⟩, ?_, ?_⟩
  · intro x y hxy
    simp only [classify_one, fge, default_thresholds, decide_eq_true_eq]
    split_ifs <;> simp_all [sevRank] <;> linarith
  · simp only [classify_severity, classify_one, fge, default_thresholds,
      List.map_cons, List.map_nil, decide_eq_true_eq]
    norm_num

/-- Witness for C2 at a concrete pair of scores. -/
theorem C2_severity_classification_witness :
    sevRank (classify_one default_thresholds (some 0.3)) ≤
      sevRank (classify_one default_thresholds (some 0.5)) :=
  C2_severity_classification.2.1 0.3 0.5 (by norm_num)

/-- C7 counterexample: for the length-1 reading sequence `[1]` the feature
vector is just `[1]` — the raw value only, so the rolling mean and rolling
std features are absent (the code adds them only when the batch has at least
7 points, not for every length ≥ 1). -/
theorem C7_counterexample :
    extract_features [(1 : ℝ)] none = [[1]] ∧
    ((extract_features [(1 : ℝ)] none).getD 0 []).length < 3 := by
  constructor
  · simp [extract_features, featureRow, List.range_succ]
  · simp [extract_features, featureRow, List.range_succ]

/-- C7 (amended): the feature-vector count always equals the reading count
for every input of length ≥ 1, and the rolling mean and rolling std features
(trailing window 3, minimum period 1) are included only when the sequence has
at least 7 readings, in which case they occupy the two positions after the
raw value in every feature vector. -/
theorem C7_rolling_features (values : List ℝ) (dates : Option (List (ℕ × ℕ)))
    (hlen : 1 ≤ values.length) :
    (extract_features values dates).length = values.length ∧
    (7 ≤ values.length → ∀ i, i < values.length → ∃ t,
      (extract_features values dates).getD i [] =
        values.getD i 0 :: rollingMean values i :: rollingStd values i :: t) := by
  constructor
  · simp [extract_features]
  · intro h7 i hi
    rw [extract_features, getD_range_map _ _ _ _ hi]
    refine ⟨(match dates with
        | some ds => [((ds.getD i (0, 0)).1 : ℝ), ((ds.getD i (0, 0)).2 : ℝ)]
        | none => []) ++ (if 1 < values.length then [diffAt values i] else []),
      ?_⟩
    simp [featureRow, h7]

/-- Witness for C7 (amended) on a concrete 7-point batch. -/
theorem C7_rolling_features_witness :
    (extract_features [1, 2, 3, 4, 5, 6, (7 : ℝ)] none).length = 7 ∧
    (∃ t, (extract_features [1, 2, 3, 4, 5, 6, (7 : ℝ)] none).getD 0 [] =
      (1 : ℝ) :: rollingMean [1, 2, 3, 4, 5, 6, 7] 0 ::
        rollingStd [1, 2, 3, 4, 5, 6, 7] 0 :: t) := by
  have h := C7_rolling_features [1, 2, 3, 4, 5, 6, (7 : ℝ)] none (by norm_num)
  refine ⟨h.1, ?_⟩
  have h2 := h.2 (by norm_num) 0 (by norm_num)
  simpa using h2

/-- A fitted detector never raises: `detect_anomalies` returns a result. -/
theorem detect_fitted_ok (d : EnhancedAnomalyDetector) (data : EnergyData)
    (h : d.fitted = true) :
    ∃ rows, d.detect_anomalies data = .ok rows := by
  unfold EnhancedAnomalyDetector.detect_anomalies
  rw [h]
  exact ⟨_, rfl⟩

/-- C3: `detect_anomalies` called before `fit` fails with the
"Model must be fitted" error rather than returning default scores; after
`fit` it succeeds, and it is deterministic: detectors built from the same
constructor arguments (contamination, seed) and fit with the same trainer on
the same training data produce identical results on identical inputs. -/
theorem C3_not_fitted_error :
    (∀ (d : EnhancedAnomalyDetector) (data : EnergyData), d.fitted = false →
      d.detect_anomalies data =
        .error "Model must be fitted before detecting anomalies") ∧
    (∀ (trainer : ForestTrainer) (c : ℝ) (seed : ℤ) (train data : EnergyData),
      ((detector_init c seed).fit trainer train).fitted = true ∧
      ∃ rows,
        ((detector_init c seed).fit trainer train).detect_anomalies data =
          .ok rows) ∧
    (∀ (trainer : ForestTrainer) (c : ℝ) (seed : ℤ) (train data : EnergyData)
      (d1 d2 : EnhancedAnomalyDetector),
      d1 = detector_init c seed → d2 = detector_init c seed →
      (d1.fit trainer train).detect_anomalies data =
        (d2.fit trainer train).detect_anomalies data) := by
  refine ⟨?_, ?_, ?_⟩
  · intro d data h
    unfold EnhancedAnomalyDetector.detect_anomalies
    rw [h]
    rfl
  · intro trainer c seed train data
    exact ⟨rfl, detect_fitted_ok _ data rfl⟩
  · intro trainer c seed train data d1 d2 h1 h2
    rw [h1, h2]

/-- Witness for C3 on a concrete unfitted detector and a concrete fitted
pipeline. -/
theorem C3_not_fitted_error_witness :
    (detector_init 0.1 42).detect_anomalies ⟨[1, 2, 3], none⟩ =
      .error "Model must be fitted before detecting anomalies" ∧
    ∃ rows,
      ((detector_init 0.1 42).fit (fun _ _ _ => fun rows => rows.map (fun _ => 0))
          ⟨[1, 2, 3], none⟩).detect_anomalies ⟨[1, 2, 3], none⟩ = .ok rows :=
  ⟨C3_not_fitted_error.1 (detector_init 0.1 42) ⟨[1, 2, 3], none⟩ rfl,
    (C3_not_fitted_error.2.1 (fun _ _ _ => fun rows => rows.map (fun _ => 0))
      0.1 42 ⟨[1, 2, 3], none⟩ ⟨[1, 2, 3], none⟩).2⟩

/-- The mean of a constant batch is its value. -/
theorem mean_replicate (n : ℕ) (v : ℝ) (hn : 1 ≤ n) :
    mean (List.replicate n v) = v := by
  have hne : (n : ℝ) ≠ 0 := Nat.cast_ne_zero.mpr (by omega)
  simp only [mean, List.sum_replicate, List.length_replicate, nsmul_eq_mul]
  exact mul_div_cancel_left₀ v hne

/-- The population variance of a constant batch is zero. -/
theorem popVar_replicate (n : ℕ) (v : ℝ) (hn : 1 ≤ n) :
    popVar (List.replicate n v) = 0 := by
  simp [popVar, mean_replicate n v hn, List.map_replicate]

/-- The sample variance of a constant batch is zero. -/
theorem sampleVar_replicate (n : ℕ) (v : ℝ) (hn : 1 ≤ n) :
    sampleVar (List.replicate n v) = 0 := by
  simp [sampleVar, mean_replicate n v hn, List.map_replicate]

/-- On a constant batch the z-scores are all NaN: the batch std is zero and
`scipy.stats.zscore` divides 0 by 0. -/
theorem zscoreAbs_replicate (n : ℕ) (v : ℝ) (hn : 1 ≤ n) :
    zscoreAbs (List.replicate n v) = List.replicate n none := by
  simp [zscoreAbs, mean_replicate n v hn, popVar_replicate n v hn,
    Real.sqrt_zero, fdiv, fabs, List.map_replicate]

/-- On a constant batch the SPC scores are all NaN: for a single sample the
pandas std is already NaN, and for two or more samples the std is zero and
the control-limit deviations divide 0 by 0. -/
theorem spc_analysis_replicate (n : ℕ) (v : ℝ) (hn : 1 ≤ n) :
    spc_analysis (List.replicate n v) = List.replicate n none := by
  by_cases h1 : n ≤ 1
  · have hs : sampleStdF (List.replicate n v) = none := by
      simp [sampleStdF, List.length_replicate, h1]
    simp [spc_analysis, hs, fadd, fmul, fsub, fmaxF, fdiv, List.map_replicate]
  · have hs : sampleStdF (List.replicate n v) = some 0 := by
      simp [sampleStdF, List.length_replicate, if_neg h1,
        sampleVar_replicate n v hn, Real.sqrt_zero]
    simp [spc_analysis, hs, mean_replicate n v hn, fadd, fmul, fsub, fmaxF,
      fdiv, List.map_replicate]

/-- C4 counterexample: on the constant batch `[5, 5, 5]` the batch std is
zero and the z-scores are all NaN (`0/0`), not 0 — the z-score division is
not epsilon-guarded. -/
theorem C4_counterexample :
    zscoreAbs [5, 5, 5] = [none, none, none] ∧
    zscoreAbs [5, 5, 5] ≠ [some 0, some 0, some 0] := by
  have h : zscoreAbs [(5 : ℝ), 5, 5] = [none, none, none] := by
    have h3 : ([(5 : ℝ), 5, 5] : List ℝ) = List.replicate 3 5 := by rfl
    rw [h3, zscoreAbs_replicate 3 5 (by norm_num)]
    rfl
  refine ⟨h, ?_⟩
  rw [h]
  simp

/-- C4 (amended): for every constant batch, scoring never raises — a fitted
detector returns a result — but every z-score and every SPC score is NaN
(`0/0`), not 0: only the isolation-score normalization is epsilon-guarded
against a zero batch range or std. -/
theorem C4_degenerate_batch (v : ℝ) (n : ℕ) (hn : 1 ≤ n) :
    zscoreAbs (List.replicate n v) = List.replicate n none ∧
    spc_analysis (List.replicate n v) = List.replicate n none ∧
    (∀ (d : EnhancedAnomalyDetector) (dates : Option (List (ℕ × ℕ))),
      d.fitted = true →
      ∃ rows, d.detect_anomalies ⟨List.replicate n v, dates⟩ = .ok rows) := by
  refine ⟨zscoreAbs_replicate n v hn, spc_analysis_replicate n v hn, ?_⟩
  intro d dates h
  exact detect_fitted_ok d _ h

/-- C5: batch export returns exactly one result record per requested day, in
order: day `i`'s record is determined by that day's export outcome alone — a
succeeding day is recorded with status "success", its file path and alert
count, and a failing day is caught and recorded with status "failed" and the
error message, without aborting the remaining days.  In particular the
concrete 7-day export in the last conjunct, in which the I/O layer raises an
I/O error exactly on day 3's file, still returns 7 records, with day 3
"failed" and the six others "success". -/
theorem C5_batch_export_per_day :
    (∀ (parse : String → ℕ) (io : String → Except String Unit) (now : String)
      (data : AlertFrame) (dateOf : ℕ → String) (n i : ℕ), i < n →
      (batch_export parse io now data dateOf n).length = n ∧
      (batch_export parse io now data dateOf n).getD i defaultBatchResult =
        (match export_daily_alerts parse io now data (dateOf i) "alerts" with
         | .ok r => ⟨dateOf i, some r.2.1.path, r.2.2, "success", none⟩
         | .error e => ⟨dateOf i, none, 0, "failed", some e⟩)) ∧
    batch_export (fun _ => 0) io_day3_fails "T" ⟨[]⟩ seven_days 7 =
      [⟨"d1", some "alerts_d1.csv", 0, "success", none⟩,
       ⟨"d2", some "alerts_d2.csv", 0, "success", none⟩,
       ⟨"d3", none, 0, "failed", some "disk full"⟩,
       ⟨"d4", some "alerts_d4.csv", 0, "success", none⟩,
       ⟨"d5", some "alerts_d5.csv", 0, "success", none⟩,
       ⟨"d6", some "alerts_d6.csv", 0, "success", none⟩,
       ⟨"d7", some "alerts_d7.csv", 0, "success", none⟩] := by
  constructor
  · intro parse io now data dateOf n i hi
    refine ⟨by simp [batch_export], ?_⟩
    rw [batch_export, getD_range_map _ _ _ _ hi]
  · decide

/-- Witness for C5 applying the per-day characterization at a concrete day. -/
theorem C5_batch_export_per_day_witness :
    (batch_export (fun _ => 0) io_day3_fails "T" ⟨[]⟩ seven_days 7).length =
      7 ∧
    (batch_export (fun _ => 0) io_day3_fails "T" ⟨[]⟩ seven_days
        7).getD 2 defaultBatchResult =
      (match export_daily_alerts (fun _ => 0) io_day3_fails "T" ⟨[]⟩
          (seven_days 2) "alerts" with
       | .ok r => ⟨seven_days 2, some r.2.1.path, r.2.2, "success", none⟩
       | .error e => ⟨seven_days 2, none, 0, "failed", some e⟩) :=
  C5_batch_export_per_day.1 (fun _ => 0) io_day3_fails "T" ⟨[]⟩ seven_days 7 2
    (by norm_num)

/-- C6: a day on which no reading falls still yields a well-formed empty
artifact: the export succeeds with zero alert rows and exactly the fixed
13-column header list, which is identical to the column list of a non-empty
day's frame — the schema never drifts between empty and non-empty days. -/
theorem C6_empty_day_schema (parse : String → ℕ)
    (io : String → Except String Unit) (now : String) (data : AlertFrame)
    (export_date : String) (prefixStr : String)
    (hio : ∀ p, io p = .ok ())
    (hempty : ∀ r ∈ data.rows,
      to_datetime parse r.date ≠ DateVal.ts (parse export_date)) :
    export_daily_alerts parse io now data export_date prefixStr =
      .ok ((filter_anomalies_by_date parse data export_date).1,
        ⟨prefixStr ++ "_" ++ removeDashes export_date ++ ".csv",
          empty_day_headers, []⟩, 0) ∧
    empty_day_headers = export_column_names ∧
    empty_day_headers.length = 13 := by
  refine ⟨?_, rfl, rfl⟩
  have hfil : (filter_anomalies_by_date parse data export_date).2.rows = [] := by
    simp only [filter_anomalies_by_date]
    rw [List.filter_eq_nil_iff]
    intro r hr
    simp only [List.mem_map] at hr
    obtain ⟨r0, hr0, rfl⟩ := hr
    have hne := hempty r0 hr0
    cases hd : r0.date with
    | raw s =>
      simp only [to_datetime, hd] at hne ⊢
      simp only [ne_eq, DateVal.ts.injEq] at hne
      simp [hne]
    | ts d =>
      simp only [to_datetime, hd] at hne ⊢
      simp only [ne_eq, DateVal.ts.injEq] at hne
      simp [hne]
  have hfmt :
      format_alert_data now (filter_anomalies_by_date parse data export_date).2
        = [] := by
    rw [format_alert_data, if_pos]
    rw [hfil]
    rfl
  unfold export_daily_alerts
  simp only [hfmt, hio, List.isEmpty_nil, if_pos]
  rfl

/-- Witness for C6 on a concrete empty frame. -/
theorem C6_empty_day_schema_witness :
    export_daily_alerts (fun _ => 0) (fun _ => .ok ()) "T" ⟨[]⟩ "d"
        "alerts" =
      .ok ((filter_anomalies_by_date (fun _ => 0) ⟨[]⟩ "d").1,
        ⟨"alerts" ++ "_" ++ removeDashes "d" ++ ".csv",
          empty_day_headers, []⟩, 0) ∧
    empty_day_headers = export_column_names ∧
    empty_day_headers.length = 13 :=
  C6_empty_day_schema (fun _ => 0) (fun _ => .ok ()) "T" ⟨[]⟩ "d" "alerts"
    (fun _ => rfl) (by intro r hr; simp at hr)

/-- Index into `l.enum.map f`. -/
theorem enum_map_getD {α β : Type} (f : ℕ × α → β) (l : List α) (i : ℕ)
    (da : α) (db : β) (hi : i < l.length) :
    (l.enum.map f).getD i db = f (i, l.getD i da) := by
  rw [List.getD_eq_getElem?_getD, List.getElem?_map,
    List.getElem?_eq_getElem (by simpa using hi)]
  simp [List.getElem_enum, List.getD_eq_getElem?_getD,
    List.getElem?_eq_getElem hi]

/-- Rounding half to even fixes integers. -/
theorem roundHalfEven_intCast (n : ℤ) : roundHalfEven (n : ℝ) = n := by
  unfold roundHalfEven
  rw [Int.floor_intCast]
  norm_num

/-- `round2` fixes integers. -/
theorem round2_intCast (n : ℤ) : round2 ((n : ℝ)) = n := by
  unfold round2
  have h : ((n : ℝ)) * 100 = ((n * 100 : ℤ) : ℝ) := by push_cast; ring
  rw [h, roundHalfEven_intCast]
  push_cast
  field_simp

/-- `round2` at 0. -/
theorem round2_zero : round2 (0 : ℝ) = 0 := by
  have h := round2_intCast 0
  norm_num at h
  exact h

/-- `round2` at 50. -/
theorem round2_fifty : round2 (50 : ℝ) = 50 := by
  have h := round2_intCast 50
  norm_num at h
  exact h

/-- `round2` at -50. -/
theorem round2_neg_fifty : round2 (-50 : ℝ) = -50 := by
  have h := round2_intCast (-50)
  norm_num at h
  exact h

/-- The row built by `format_alert_data` at a valid index of a non-empty
frame. -/
theorem format_alert_data_getD (now : String) (frame : AlertFrame) (i : ℕ)
    (hi : i < frame.rows.length) (dIn : AlertInputRow) :
    (format_alert_data now frame).getD i defaultAlertRow =
      format_row now (mean (frame.rows.map (fun r => r.energyOutput)))
        (sampleStdF (frame.rows.map (fun r => r.energyOutput)))
        (if 1 < frame.rows.length then
          (if is_monotonic_decreasing (frame.rows.map (fun r => r.energyOutput))
            then "Declining" else "Variable")
         else "Single Point")
        (i, frame.rows.getD i dIn) := by
  have hne : frame.rows.isEmpty = false := by
    cases h : frame.rows with
    | nil => rw [h] at hi; simp at hi
    | cons a t => rfl
  rw [format_alert_data, if_neg (by rw [hne]; simp)]
  exact enum_map_getD _ _ i dIn _ hi

/-- The mean of a one-element batch is its value. -/
theorem mean_singleton (x : ℝ) : mean [x] = x := by
  norm_num [mean]

/-- Reading each index of a list back yields the list. -/
theorem range_map_getD (l : List ℝ) :
    (List.range l.length).map (fun i => l.getD i 0) = l := by
  apply List.ext_getElem
  · simp
  · intro i h1 h2
    simp [List.getD_eq_getElem?_getD, List.getElem?_eq_getElem h2]

/-- C8 counterexample: for the day whose alert energies are `[-100, -300]`
(day mean `-200`), the code computes `abs` of the entire signed ratio, giving
deviation `50.0`, while the claimed formula `|value − dayMean| / dayMean × 100`
evaluates to `-50.0` — the two disagree on a negative-mean day. -/
theorem C8_counterexample :
    ((format_alert_data "T" ⟨[⟨DateVal.ts 0, -100, "Normal", 0.2, "x"⟩,
        ⟨DateVal.ts 0, -300, "Normal", 0.2, "x"⟩]⟩).getD 0
      defaultAlertRow).deviation_percentage = some 50 ∧
    round2F (fmul (fdiv (fabs (fsub (some (-100 : ℝ))
        (some (mean [(-100 : ℝ), -300])))) (some (mean [(-100 : ℝ), -300])))
      (some 100)) = some (-50) ∧
    (some (50 : ℝ)) ≠ (some (-50 : ℝ)) := by
  have hm : mean [(-100 : ℝ), -300] = -200 := by
    norm_num [mean]
  refine ⟨?_, ?_, by norm_num⟩
  · rw [format_alert_data_getD "T" _ 0 (by norm_num)
      ⟨DateVal.ts 0, 0, "", 0, ""⟩]
    simp only [format_row]
    norm_num [mean, fsub, fdiv, fmul, fabs, round2F]
    exact round2_fifty
  · rw [hm]
    norm_num [fsub, fabs, fdiv, fmul, round2F]
    exact round2_neg_fifty

/-- C8 (amended): for every non-empty export day the derived fields are
computed over that day's own alert set — `expected_min` is the Python
`max(0, dayMean − 2·dayStd)` and `expected_max = dayMean + 2·dayStd`; the
deviation percentage equals `round(|value − dayMean| / dayMean × 100, 2)`
whenever the day mean is nonnegative (the code takes the absolute value of
the entire signed ratio, which coincides unless the day mean is negative).
For day values `[100, 200, 300]` (mean 200, std 100) the deviation
percentages are `[50.0, 0.0, 50.0]` and the expected range is `[0, 400]`. -/
theorem C8_day_local_fields :
    (∀ (now : String) (frame : AlertFrame) (i : ℕ), i < frame.rows.length →
      ((format_alert_data now frame).getD i defaultAlertRow).expected_min =
        pymax0 (fsub (some (mean (frame.rows.map (fun r => r.energyOutput))))
          (fmul (some 2)
            (sampleStdF (frame.rows.map (fun r => r.energyOutput))))) ∧
      ((format_alert_data now frame).getD i defaultAlertRow).expected_max =
        fadd (some (mean (frame.rows.map (fun r => r.energyOutput))))
          (fmul (some 2)
            (sampleStdF (frame.rows.map (fun r => r.energyOutput)))) ∧
      (0 ≤ mean (frame.rows.map (fun r => r.energyOutput)) →
        ((format_alert_data now frame).getD i
            defaultAlertRow).deviation_percentage =
          round2F (fmul (fdiv (fabs (fsub
            (some (((format_alert_data now frame).getD i
              defaultAlertRow).energy_kwh))
            (some (mean (frame.rows.map (fun r => r.energyOutput))))))
            (some (mean (frame.rows.map (fun r => r.energyOutput)))))
            (some 100)))) ∧
    (format_alert_data "T" ⟨[⟨DateVal.ts 0, 100, "Normal", 0.2, "x"⟩,
        ⟨DateVal.ts 0, 200, "Normal", 0.2, "x"⟩,
        ⟨DateVal.ts 0, 300, "Normal", 0.2, "x"⟩]⟩).map
      (fun r => (r.deviation_percentage, r.expected_min, r.expected_max)) =
      [(some 50, some 0, some 400), (some 0, some 0, some 400),
       (some 50, some 0, some 400)] := by
  constructor
  · intro now frame i hi
    rw [format_alert_data_getD now frame i hi ⟨DateVal.ts 0, 0, "", 0, ""⟩]
    refine ⟨rfl, rfl, ?_⟩
    intro hm
    simp only [format_row]
    rcases lt_or_eq_of_le hm with hpos | hzero
    · have hne : mean (frame.rows.map (fun r => r.energyOutput)) ≠ 0 :=
        ne_of_gt hpos
      simp only [fsub, fdiv, fmul, fabs, round2F, Option.map, if_neg hne]
      congr 1
      rw [abs_mul, abs_div, abs_of_pos hpos,
        show |(100 : ℝ)| = 100 by norm_num]
    · simp only [fsub, fdiv, fmul, fabs, round2F, ← hzero]
      norm_num
  · have hsq : Real.sqrt 10000 = 100 := by
      rw [show (10000 : ℝ) = 100 ^ 2 by norm_num, Real.sqrt_sq (by norm_num)]
    have hmean : mean [(100 : ℝ), 200, 300] = 200 := by
      norm_num [mean]
    have hstd : sampleStdF [(100 : ℝ), 200, 300] = some 100 := by
      rw [sampleStdF, if_neg (by norm_num)]
      rw [show sampleVar [(100 : ℝ), 200, 300] = 10000 by
        norm_num [sampleVar, hmean]]
      rw [hsq]
    simp only [format_alert_data, List.isEmpty_cons, List.map_cons,
      List.map_nil, List.enum, List.enumFrom, format_row]
    norm_num [hmean, hstd, fsub, fdiv, fmul, fadd, fabs, pymax0, round2F]
    exact ⟨round2_fifty, round2_zero, round2_fifty⟩

/-- Witness for C8 (amended), applying the general field characterization on
a concrete two-row day. -/
theorem C8_day_local_fields_witness :
    ((format_alert_data "W" ⟨[⟨DateVal.ts 0, 10, "Normal", 0.2, "x"⟩,
        ⟨DateVal.ts 0, 20, "Normal", 0.2, "x"⟩]⟩).getD 0
      defaultAlertRow).expected_min =
      pymax0 (fsub
        (some (mean (([⟨DateVal.ts 0, 10, "Normal", 0.2, "x"⟩,
          ⟨DateVal.ts 0, 20, "Normal", 0.2, "x"⟩] : List AlertInputRow).map
            (fun r => r.energyOutput))))
        (fmul (some 2)
          (sampleStdF (([⟨DateVal.ts 0, 10, "Normal", 0.2, "x"⟩,
            ⟨DateVal.ts 0, 20, "Normal", 0.2, "x"⟩] : List AlertInputRow).map
              (fun r => r.energyOutput))))) :=
  (C8_day_local_fields.1 "W" ⟨[⟨DateVal.ts 0, 10, "Normal", 0.2, "x"⟩,
    ⟨DateVal.ts 0, 20, "Normal", 0.2, "x"⟩]⟩ 0 (by norm_num)).1

/-- C10 counterexample: a single-alert day whose alert has energy `0` gets
deviation percentage NaN (`0/0`), not `0.0`. -/
theorem C10_counterexample :
    ((format_alert_data "T" ⟨[⟨DateVal.ts 0, 0, "Normal", 0.5, "x"⟩]⟩).getD 0
      defaultAlertRow).deviation_percentage = none ∧
    (none : F) ≠ some (0 : ℝ) := by
  refine ⟨?_, by simp⟩
  rw [format_alert_data_getD "T" _ 0 (by norm_num) ⟨DateVal.ts 0, 0, "", 0, ""⟩]
  simp only [format_row]
  norm_num [mean, fsub, fdiv, fmul, fabs, round2F]

/-- C10 (amended): a day with exactly one alert gets `trend_direction`
"Single Point"; the pandas sample std of the single value is NaN, so
`expected_max` is NaN while `expected_min` (Python `max(0, nan)`) evaluates
to 0; the deviation percentage is `0.0` when the alert's energy value is
nonzero, and NaN (`0/0`) when it is zero. -/
theorem C10_single_alert_day (now : String) (r : AlertInputRow) :
    (format_alert_data now ⟨[r]⟩).length = 1 ∧
    ((format_alert_data now ⟨[r]⟩).getD 0 defaultAlertRow).trend_direction =
      "Single Point" ∧
    ((format_alert_data now ⟨[r]⟩).getD 0 defaultAlertRow).expected_max =
      none ∧
    ((format_alert_data now ⟨[r]⟩).getD 0 defaultAlertRow).expected_min =
      some 0 ∧
    (r.energyOutput ≠ 0 →
      ((format_alert_data now ⟨[r]⟩).getD 0
        defaultAlertRow).deviation_percentage = some 0) ∧
    (r.energyOutput = 0 →
      ((format_alert_data now ⟨[r]⟩).getD 0
        defaultAlertRow).deviation_percentage = none) := by
  have hstd : sampleStdF ((⟨[r]⟩ : AlertFrame).rows.map
      (fun x => x.energyOutput)) = none := by
    simp [sampleStdF]
  have hmean : mean ((⟨[r]⟩ : AlertFrame).rows.map
      (fun x => x.energyOutput)) = r.energyOutput := by
    simp only [List.map_cons, List.map_nil]
    exact mean_singleton r.energyOutput
  refine ⟨by simp [format_alert_data], ?_, ?_, ?_, ?_, ?_⟩
  · rw [format_alert_data_getD now _ 0 (by norm_num) r]
    simp [format_row]
  · rw [format_alert_data_getD now _ 0 (by norm_num) r]
    simp only [format_row, hstd, fmul, fadd]
  · rw [format_alert_data_getD now _ 0 (by norm_num) r]
    simp only [format_row, hstd, fmul, fsub, pymax0]
  · intro hne
    rw [format_alert_data_getD now _ 0 (by norm_num) r]
    simp only [format_row, hmean, fsub, List.getD_cons_zero, sub_self]
    simp only [fdiv, if_neg hne, fmul, fabs, Option.map, round2F]
    norm_num [round2_zero]
  · intro hzero
    rw [format_alert_data_getD now _ 0 (by norm_num) r]
    simp only [format_row, hmean, fsub, List.getD_cons_zero, sub_self, hzero]
    simp [fdiv, fmul, fabs, round2F]

/-- Witness for C10 (amended) on a concrete single-alert day. -/
theorem C10_single_alert_day_witness :
    ((format_alert_data "T" ⟨[⟨DateVal.ts 0, 5, "Normal", 0.5, "x"⟩]⟩).getD 0
      defaultAlertRow).expected_max = none ∧
    ((format_alert_data "T" ⟨[⟨DateVal.ts 0, 5, "Normal", 0.5, "x"⟩]⟩).getD 0
      defaultAlertRow).expected_min = some 0 ∧
    ((format_alert_data "T" ⟨[⟨DateVal.ts 0, 5, "Normal", 0.5, "x"⟩]⟩).getD 0
      defaultAlertRow).deviation_percentage = some 0 :=
  ⟨(C10_single_alert_day "T" ⟨DateVal.ts 0, 5, "Normal", 0.5, "x"⟩).2.2.1,
    (C10_single_alert_day "T" ⟨DateVal.ts 0, 5, "Normal", 0.5, "x"⟩).2.2.2.1,
    (C10_single_alert_day "T" ⟨DateVal.ts 0, 5, "Normal", 0.5, "x"⟩).2.2.2.2.1
      (by norm_num)⟩

/-- C9 counterexample: `filter_anomalies_by_date` converts the caller's
`date` column to datetime in place, so a caller-supplied frame whose date is
still a raw string is modified by the daily-export filtering step. -/
theorem C9_counterexample :
    (filter_anomalies_by_date (fun _ => 7)
      ⟨[⟨DateVal.raw "2024-01-05", 100, "Normal", 0.2, "x"⟩]⟩
      "2024-01-05").1 ≠
      ⟨[⟨DateVal.raw "2024-01-05", 100, "Normal", 0.2, "x"⟩]⟩ := by
  intro h
  have h2 := congrArg (fun f => f.rows.map (fun r => r.date)) h
  simp [filter_anomalies_by_date, to_datetime] at h2

/-- C9 (amended): `detect_anomalies` leaves its input unchanged and returns
an augmented copy (the result rows carry exactly the input reading values);
`filter_anomalies_by_date` leaves the non-date columns and the row sequence
unchanged but converts the caller's `date` column to datetime in place — the
caller's frame is unchanged only when every date is already parsed. -/
theorem C9_input_preservation :
    (∀ (d : EnhancedAnomalyDetector) (data : EnergyData), d.fitted = true →
      ∃ rows, d.detect_anomalies data = .ok rows ∧
        rows.map (fun r => r.energyOutput) = data.values) ∧
    (∀ (parse : String → ℕ) (data : AlertFrame) (target : String),
      (filter_anomalies_by_date parse data target).1.rows =
        data.rows.map (fun r => { r with date := to_datetime parse r.date }) ∧
      ((∀ r ∈ data.rows, ∃ day, r.date = DateVal.ts day) →
        (filter_anomalies_by_date parse data target).1 = data)) := by
  constructor
  · intro d data h
    unfold EnhancedAnomalyDetector.detect_anomalies
    rw [h]
    refine ⟨_, rfl, ?_⟩
    rw [List.map_map]
    exact range_map_getD data.values
  · intro parse data target
    refine ⟨rfl, ?_⟩
    intro hts
    obtain ⟨rows⟩ := data
    simp only [filter_anomalies_by_date, AlertFrame.mk.injEq]
    have hconv : ∀ r ∈ rows,
        ({ r with date := to_datetime parse r.date } : AlertInputRow) = r := by
      intro r hr
      obtain ⟨day, hday⟩ := hts r hr
      cases r
      simp_all [to_datetime]
    calc rows.map (fun r => { r with date := to_datetime parse r.date })
        = rows.map id := List.map_congr_left hconv
      _ = rows := List.map_id rows

/-- Witness for C9 (amended) on a concrete fitted detector and input. -/
theorem C9_input_preservation_witness :
    ∃ rows,
      ((detector_init 0.1 42).fit
        (fun _ _ _ => fun rs => rs.map (fun _ => 0))
        ⟨[1, 2], none⟩).detect_anomalies ⟨[5, 6], none⟩ = .ok rows ∧
      rows.map (fun r => r.energyOutput) = [5, 6] :=
  C9_input_preservation.1
    ((detector_init 0.1 42).fit (fun _ _ _ => fun rs => rs.map (fun _ => 0))
      ⟨[1, 2], none⟩) ⟨[5, 6], none⟩ rfl

/-- Witness for C4 (amended) on a concrete constant batch. -/
theorem C4_degenerate_batch_witness :
    zscoreAbs (List.replicate 4 (7 : ℝ)) = List.replicate 4 none ∧
    spc_analysis (List.replicate 4 (7 : ℝ)) = List.replicate 4 none ∧
    (∀ (d : EnhancedAnomalyDetector) (dates : Option (List (ℕ × ℕ))),
      d.fitted = true →
      ∃ rows, d.detect_anomalies ⟨List.replicate 4 (7 : ℝ), dates⟩ = .ok rows) :=
  C4_degenerate_batch 7 4 (by norm_num)

end
